import Mathlib

/-!
Shallow embedding of the gps-timesync repository's NMEA protocol layer.

Strings from the Go source are modelled as `List Char`; the development
restricts attention to ASCII content (hypotheses `c.toNat < 128` where a
byte-level fact is needed), which is the character set NMEA-0183 uses, so
one character corresponds to one byte of the Go `[]byte` view.
-/

/-- A parsed calendar timestamp, the result Go's `time.Parse` produces for
the layout `"2006-01-02 15:04:05"` (always interpreted in UTC). -/
structure DateTime where
  year : Nat
  month : Nat
  day : Nat
  hour : Nat
  minute : Nat
  second : Nat
deriving DecidableEq, Repr

/-- Errors of the `nmea` package: `ErrInvalidNMEAData` for the length
pre-checks, and the error `time.Parse` returns for a string that is not a
valid calendar timestamp. -/
inductive NMEAErr where
  | invalidNMEAData
  | timeParseError
deriving DecidableEq, Repr

/-- Value of an ASCII decimal digit character. -/
def digitVal (c : Char) : Option Nat :=
  if c.isDigit then some (c.toNat - 48) else none

/-- Go `time.Parse` reading a fixed-width 2-digit number. -/
def num2 : List Char → Option Nat
  | [a, b] =>
    match digitVal a, digitVal b with
    | some x, some y => some (10 * x + y)
    | _, _ => none
  | _ => none

/-- Go `time.Parse` reading a fixed-width 4-digit number. -/
def num4 : List Char → Option Nat
  | [a, b, c, d] =>
    match digitVal a, digitVal b, digitVal c, digitVal d with
    | some w, some x, some y, some z => some (1000 * w + 100 * x + 10 * y + z)
    | _, _, _, _ => none
  | _ => none

/-- Gregorian leap-year rule, as in Go's `time` package. -/
def isLeapYear (y : Nat) : Bool :=
  y % 4 == 0 && (y % 100 != 0 || y % 400 == 0)

/-- Number of days of month `m` of year `y`, as in Go's `time` package. -/
def daysInMonth (y m : Nat) : Nat :=
  if m = 2 then (if isLeapYear y then 29 else 28)
  else if m = 4 ∨ m = 6 ∨ m = 9 ∨ m = 11 then 30
  else 31

/-- Embeds Go `time.Parse` with layout `"2006-01-02 15:04:05"` applied to a
string assembled from the given numeric components (year 4 chars, the rest
2 chars each): every component must be all digits, and the ranges are
checked exactly as Go does (month 1..12, day 1..daysInMonth, hour 0..23,
minute 0..59, second 0..59). -/
def goTimeParse (year month day hour minute second : List Char) : Option DateTime :=
  match num4 year, num2 month, num2 day, num2 hour, num2 minute, num2 second with
  | some y, some mo, some d, some h, some mi, some s =>
    if 1 ≤ mo ∧ mo ≤ 12 ∧ 1 ≤ d ∧ d ≤ daysInMonth y mo ∧ h ≤ 23 ∧ mi ≤ 59 ∧ s ≤ 59
    then some ⟨y, mo, d, h, mi, s⟩
    else none
  | _, _, _, _, _, _ => none

/-- `ParseNMEATime` from `pkg/nmea/nmea.go`: rejects a time field shorter
than 6 characters or a date field whose length is not 6, then slices
`HHMMSS` out of the time field and `DDMMYY` out of the date field, maps the
year to `"20" + YY`, and hands the components to Go `time.Parse`. -/
def ParseNMEATime (timeStr dateStr : List Char) : Except NMEAErr DateTime :=
  if timeStr.length < 6 ∨ dateStr.length ≠ 6 then .error .invalidNMEAData
  else
    match goTimeParse (['2', '0'] ++ (dateStr.drop 4).take 2)
        ((dateStr.drop 2).take 2) (dateStr.take 2)
        (timeStr.take 2) ((timeStr.drop 2).take 2) ((timeStr.drop 4).take 2) with
    | some t => .ok t
    | none => .error .timeParseError

/-- `strings.HasPrefix p l` from the Go standard library, on char lists. -/
def startsWith (p l : List Char) : Bool :=
  List.isPrefixOf p l

/-- Errors the `gps` and `system` packages can surface, plus the wrapped
read and path-validation errors built with `fmt.Errorf`. -/
inductive GPSErr where
  | invalidPath
  | deviceAccess
  | configError
  | noValidData
  | readError
  | systemTimeUpdate
  | ctxCancelled
deriving DecidableEq, Repr

/-- How a finite prefix of the serial stream ends: either the probe/sync
timeout fires before another line arrives, or the scanner reports an I/O
error. -/
inductive StreamEnd where
  | timeout
  | ioError
deriving DecidableEq, Repr

/-- Observable side effects a session performs on its collaborators. -/
inductive Effect where
  | openDevice
  | configurePort
deriving DecidableEq, Repr

/-- The per-line handler of `SyncTime` (`pkg/gps`, the body of the
`scanner.Scan()` branch): on a `$GPRMC` line it splits on commas, skips the
line when there are fewer than 10 fields or the status field (index 2) is
not `"A"`, otherwise parses fields 1 (time) and 9 (date); `some t` means
the handler goes on to call `system.SetSystemTime t`, `none` means the
handler skips the line and the loop continues. -/
def processLine (l : List Char) : Option DateTime :=
  if startsWith "$GPRMC".toList l then
    let fields := l.splitOn ','
    if fields.length < 10 then none
    else if fields.getD 2 [] ≠ "A".toList then none
    else
      match ParseNMEATime (fields.getD 1 []) (fields.getD 9 []) with
      | .ok t => some t
      | .error _ => none
  else none

/-- The read loop of `SyncTime`: consumes the lines the scanner delivers in
order; the first line the handler accepts triggers exactly one
`SetSystemTime` call (recorded in the returned trace) and the loop returns
that collaborator's result (`none` = success, mirroring a `nil` error); if
the lines run out, the timeout case returns `ErrNoValidData` and the
scanner-error case returns the wrapped read error.  `setResult` is the
clock-set collaborator. -/
def syncLoop (setResult : DateTime → Option GPSErr) :
    List (List Char) → StreamEnd → List DateTime × Option GPSErr
  | [], .timeout => ([], some .noValidData)
  | [], .ioError => ([], some .readError)
  | l :: ls, e =>
    match processLine l with
    | some t => ([t], setResult t)
    | none => syncLoop setResult ls e

/-- Talker-ID test of `IsGPSDevice`: the line starts with one of the
recognized prefixes `$GP`, `$GN`, `$GL`, `$GA`. -/
def hasNMEATalker (l : List Char) : Bool :=
  startsWith "$GP".toList l || startsWith "$GN".toList l ||
  startsWith "$GL".toList l || startsWith "$GA".toList l

/-- The read loop of `IsGPSDevice`: returns `(true, none)` on the first
line with a recognized talker prefix (a `nil` error), `(false, ErrNoValidData)`
when the 2-second timeout fires first, and `(false, readError)` when the
scanner reports an I/O error. -/
def probeLoop : List (List Char) → StreamEnd → Bool × Option GPSErr
  | [], .timeout => (false, some .noValidData)
  | [], .ioError => (false, some .readError)
  | l :: ls, e => if hasNMEATalker l then (true, none) else probeLoop ls e

/-- The device-path validation at the top of `IsGPSDevice`: on Windows the
path must start with `"COM"`, elsewhere with `"/dev/"`. -/
def devPathOk (windows : Bool) (device : List Char) : Bool :=
  if windows then startsWith "COM".toList device
  else startsWith "/dev/".toList device

/-- `IsGPSDevice` from `pkg/gps`: validates the device path (returning the
path error with no side effect when it fails), then opens the device
(`openOk` models whether `os.OpenFile` succeeds), configures the serial
port (`cfgOk` models `system.ConfigureSerialPort`), and runs the probe
loop on the lines the stream delivers before `tail` ends it.  The first
component records the collaborator calls attempted. -/
def IsGPSDevice (windows : Bool) (device : List Char) (openOk cfgOk : Bool)
    (lines : List (List Char)) (tail : StreamEnd) :
    List Effect × (Bool × Option GPSErr) :=
  if devPathOk windows device then
    if openOk then
      if cfgOk then ([.openDevice, .configurePort], probeLoop lines tail)
      else ([.openDevice, .configurePort], (false, some .configError))
    else ([.openDevice], (false, some .deviceAccess))
  else ([], (false, some .invalidPath))

/-- The checksum accumulation of `addChecksumAndCRLF` (gps-simulator
`main.go`): `checksum ^= int(char)` folded left over the bytes of the
sentence body, starting from 0.  One ASCII character is one byte. -/
def computeChecksum (b : List Char) : Nat :=
  b.foldl (fun a c => a ^^^ c.toNat) 0

/-- Uppercase hexadecimal digit character for a value below 16
(`'0'..'9'`, `'A'..'F'`), as `%X` formatting produces. -/
def hexDigitChar (n : Nat) : Char :=
  if n < 10 then Char.ofNat (48 + n) else Char.ofNat (55 + n)

/-- Go `fmt.Sprintf "%02X"` for values below 256: exactly two uppercase
hexadecimal digits.  `addChecksumAndCRLF` only applies it to the XOR of
byte values, which stays below 256 on the ASCII bodies this development
models. -/
def hex02X (n : Nat) : List Char :=
  [hexDigitChar (n / 16), hexDigitChar (n % 16)]

/-- `addChecksumAndCRLF` (present identically in both simulator `main.go`
files): `fmt.Sprintf("$%s*%02X\r\n", sentenceBody, checksum)` where
`checksum` is the XOR of the body's bytes. -/
def addChecksumAndCRLF (sentenceBody : List Char) : List Char :=
  '$' :: sentenceBody ++ '*' :: hex02X (computeChecksum sentenceBody) ++ ['\r', '\n']

/-- Right-fold formulation of the spec's `ComputeChecksum`: "XOR of every
character's byte value in body". -/
def xorBytes : List Char → Nat
  | [] => 0
  | c :: cs => c.toNat ^^^ xorBytes cs

/-- Uppercase-hex-digit test (`0-9A-F`). -/
def isUpperHexDigit (c : Char) : Bool :=
  ('0' ≤ c && c ≤ '9') || ('A' ≤ c && c ≤ 'F')

/-- Hexadecimal digit value, accepting either case. -/
def hexVal (c : Char) : Option Nat :=
  if '0' ≤ c ∧ c ≤ '9' then some (c.toNat - 48)
  else if 'A' ≤ c ∧ c ≤ 'F' then some (c.toNat - 55)
  else if 'a' ≤ c ∧ c ≤ 'f' then some (c.toNat - 87)
  else none

/-- The spec's `Sentence` record: talker ID, sentence type, the fields
after the first comma-separated token, the parsed checksum, and whether
the recomputed checksum matches it. -/
structure Sentence where
  talkerID : List Char
  sentenceType : List Char
  fields : List (List Char)
  checksum : Nat
  checksumValid : Bool
deriving DecidableEq, Repr

/-- Strip trailing CR/LF characters from a line. -/
def stripCRLF (l : List Char) : List Char :=
  (l.reverse.dropWhile (fun c => c == '\r' || c == '\n')).reverse

/-- Modelled from the spec: the repository contains no sentence decoder
producing a `checksumValid` bit (`SyncTime` splits raw lines without
checksum validation), so `Decode` follows spec section 4.1: strip trailing
CR/LF, require a leading `$` and a `*` followed by exactly two hex digits,
split the substring before `*` on commas — the first token's first 2 and
next 3 characters give talker and type, the rest are the fields — and
recompute the checksum over the body to set `checksumValid`. -/
def Decode (line : List Char) : Option Sentence :=
  match stripCRLF line with
  | '$' :: rest =>
    let body := rest.takeWhile (fun c => c != '*')
    match rest.dropWhile (fun c => c != '*') with
    | '*' :: c1 :: c2 :: [] =>
      match hexVal c1, hexVal c2 with
      | some h1, some h2 =>
        let cs := 16 * h1 + h2
        some { talkerID := body.take 2
               sentenceType := (body.drop 2).take 3
               fields := (body.splitOn ',').drop 1
               checksum := cs
               checksumValid := computeChecksum body == cs }
      | _, _ => none
    | _ => none
  | _ => none

/-- The canonical RMC sentence of spec section 8's end-to-end test. -/
def rmcExampleLine : List Char :=
  "$GPRMC,123519,A,4807.038,N,01131.000,E,022.4,084.4,230394,003.1,W*6A".toList

/-- A clock-set collaborator that always succeeds. -/
def setOkStub : DateTime → Option GPSErr := fun _ => none

/-- An RMC sentence with status `V` (void fix). -/
def rmcVoidLine : List Char :=
  "$GPRMC,123456,V,0000.000,N,00000.000,E,0.0,0.0,010124,0.0,W*00".toList

/-- An RMC sentence with status `A` and parseable time/date fields. -/
def rmcActiveLine : List Char :=
  "$GPRMC,123456,A,0000.000,N,00000.000,E,0.0,0.0,010124,0.0,W*00".toList

/-- An RMC sentence with status `A` whose time and date fields are not a
valid calendar timestamp (hour 99, month 99). -/
def rmcBadTimeLine : List Char :=
  "$GPRMC,999999,A,0000.000,N,00000.000,E,0.0,0.0,999999,0.0,W*00".toList

/-- C1 counterexample: on the sentence
`$GPRMC,123519,A,4807.038,N,01131.000,E,022.4,084.4,230394,003.1,W*6A` the
sync pipeline's per-line decode and timestamp parse does NOT yield
1994-03-23T12:35:19Z: `ParseNMEATime` maps the two-digit year 94 to 2094. -/
theorem rmc_example_not_1994 :
    processLine rmcExampleLine ≠ some ⟨1994, 3, 23, 12, 35, 19⟩ := by
  decide

/-- C1 (amended): feeding the canonical sentence through the sync
pipeline's decode and timestamp parse yields 2094-03-23T12:35:19Z (the
code maps two-digit year YY to 2000+YY), with exactly one clock-set call
and a successful return. -/
theorem rmc_example_yields_2094 :
    ParseNMEATime "123519".toList "230394".toList = .ok ⟨2094, 3, 23, 12, 35, 19⟩
    ∧ processLine rmcExampleLine = some ⟨2094, 3, 23, 12, 35, 19⟩
    ∧ syncLoop setOkStub [rmcExampleLine] StreamEnd.timeout
        = ([⟨2094, 3, 23, 12, 35, 19⟩], none) := by
  refine ⟨by rfl, by rfl, by rfl⟩

/-- C4: `ParseNMEATime` maps `("123456", "010124")` to
2024-01-01T12:34:56Z, returns `ErrInvalidNMEAData` whenever the time field
is shorter than 6 characters or the date field's length is not 6 (in
particular on `("12345", "010124")` and `("123456", "99999")`), and
ignores characters of the time field beyond position 6. -/
theorem parse_nmea_time_contract :
    ParseNMEATime "123456".toList "010124".toList = .ok ⟨2024, 1, 1, 12, 34, 56⟩
    ∧ (∀ t d : List Char, t.length < 6 →
        ParseNMEATime t d = .error .invalidNMEAData)
    ∧ (∀ t d : List Char, d.length ≠ 6 →
        ParseNMEATime t d = .error .invalidNMEAData)
    ∧ ParseNMEATime "12345".toList "010124".toList = .error .invalidNMEAData
    ∧ ParseNMEATime "123456".toList "99999".toList = .error .invalidNMEAData
    ∧ (∀ t extra d : List Char, t.length = 6 →
        ParseNMEATime (t ++ extra) d = ParseNMEATime t d) := by
  refine ⟨by rfl, ?_, ?_, by rfl, by rfl, ?_⟩
  · intro t d ht
    unfold ParseNMEATime
    rw [if_pos (Or.inl ht)]
  · intro t d hd
    unfold ParseNMEATime
    rw [if_pos (Or.inr hd)]
  · intro t extra d ht
    have hlen : ¬ (t ++ extra).length < 6 := by
      simp [List.length_append, ht]
    have hlen' : ¬ t.length < 6 := by simp [ht]
    have e1 : (t ++ extra).take 2 = t.take 2 :=
      List.take_append_of_le_length (by simp [ht])
    have edrop2 : (t ++ extra).drop 2 = t.drop 2 ++ extra :=
      List.drop_append_of_le_length (by simp [ht])
    have e2 : ((t ++ extra).drop 2).take 2 = (t.drop 2).take 2 := by
      rw [edrop2]
      exact List.take_append_of_le_length (by simp [ht])
    have edrop4 : (t ++ extra).drop 4 = t.drop 4 ++ extra :=
      List.drop_append_of_le_length (by simp [ht])
    have e3 : ((t ++ extra).drop 4).take 2 = (t.drop 4).take 2 := by
      rw [edrop4]
      exact List.take_append_of_le_length (by simp [ht])
    by_cases hd : d.length ≠ 6
    · unfold ParseNMEATime
      rw [if_pos (Or.inr hd), if_pos (Or.inr hd)]
    · unfold ParseNMEATime
      rw [if_neg (not_or.mpr ⟨hlen, hd⟩), if_neg (not_or.mpr ⟨hlen', hd⟩),
        e1, e2, e3]

/-- C3: in `SyncTime`'s read loop a `$GPRMC` line whose status field
(index 2) is `"V"` never reaches the clock-set collaborator — the handler
skips it and the loop continues — while a `$GPRMC` line with status `"A"`
and parseable time/date fields causes exactly one `SetSystemTime` call
(the trace is `[t]`) after which the loop returns success without reading
any further line. -/
theorem sync_rmc_status_gate (setR : DateTime → Option GPSErr) (l : List Char)
    (ls : List (List Char)) (e : StreamEnd) :
    ((l.splitOn ',').getD 2 [] = "V".toList →
      processLine l = none ∧ syncLoop setR (l :: ls) e = syncLoop setR ls e)
    ∧ (∀ t : DateTime, startsWith "$GPRMC".toList l = true →
        10 ≤ (l.splitOn ',').length →
        (l.splitOn ',').getD 2 [] = "A".toList →
        ParseNMEATime ((l.splitOn ',').getD 1 []) ((l.splitOn ',').getD 9 []) = .ok t →
        setR t = none →
        processLine l = some t ∧ syncLoop setR (l :: ls) e = ([t], none)) := by
  constructor
  · intro hV
    have hp : processLine l = none := by
      unfold processLine
      by_cases h1 : startsWith "$GPRMC".toList l = true
      · rw [if_pos h1]
        by_cases h2 : (l.splitOn ',').length < 10
        · simp [h2]
        · have hne : (l.splitOn ',').getD 2 [] ≠ ['A'] := by
            rw [hV]; decide
          simp only [List.getD, List.get?_eq_getElem?] at hne
          simp [h2, hne]
      · rw [if_neg h1]
    exact ⟨hp, by simp [syncLoop, hp]⟩
  · intro t h1 h2 h3 h4 h5
    have hp : processLine l = some t := by
      unfold processLine
      rw [if_pos h1]
      have h2' : ¬ (l.splitOn ',').length < 10 := Nat.not_lt.mpr h2
      have h3' : (l.splitOn ',').getD 2 [] = ['A'] := h3
      have h4' := h4
      simp only [List.getD, List.get?_eq_getElem?] at h3' h4'
      simp [h2', h3', h4']
    exact ⟨hp, by simp [syncLoop, hp, h5]⟩

/-- C3 witness: the status gate applied to a concrete void sentence and a
concrete active sentence. -/
theorem sync_rmc_status_gate_witness :
    (processLine rmcVoidLine = none
      ∧ syncLoop setOkStub (rmcVoidLine :: []) StreamEnd.timeout
          = syncLoop setOkStub [] StreamEnd.timeout)
    ∧ (processLine rmcActiveLine = some ⟨2024, 1, 1, 12, 34, 56⟩
      ∧ syncLoop setOkStub (rmcActiveLine :: []) StreamEnd.timeout
          = ([⟨2024, 1, 1, 12, 34, 56⟩], none)) :=
  ⟨(sync_rmc_status_gate setOkStub rmcVoidLine [] StreamEnd.timeout).1 (by decide),
   (sync_rmc_status_gate setOkStub rmcActiveLine [] StreamEnd.timeout).2
     ⟨2024, 1, 1, 12, 34, 56⟩ (by decide) (by decide) (by decide) (by rfl) rfl⟩

/-- C5: during `SyncTime` a `$GPRMC` line with status `"A"` whose
time/date fields fail to parse is skipped and the read loop continues
exactly as if the line had not been there: a single malformed sentence
never makes the loop return an error or stop early. -/
theorem sync_parse_failure_skip (setR : DateTime → Option GPSErr) (l : List Char)
    (ls : List (List Char)) (e : StreamEnd) (err : NMEAErr)
    (h1 : startsWith "$GPRMC".toList l = true)
    (h2 : (l.splitOn ',').getD 2 [] = "A".toList)
    (h3 : ParseNMEATime ((l.splitOn ',').getD 1 []) ((l.splitOn ',').getD 9 [])
        = .error err) :
    processLine l = none ∧ syncLoop setR (l :: ls) e = syncLoop setR ls e := by
  have hp : processLine l = none := by
    unfold processLine
    rw [if_pos h1]
    by_cases h4 : (l.splitOn ',').length < 10
    · simp [h4]
    · have h2' : (l.splitOn ',').getD 2 [] = ['A'] := h2
      have h3' := h3
      simp only [List.getD, List.get?_eq_getElem?] at h2' h3'
      simp [h4, h2', h3']
  exact ⟨hp, by simp [syncLoop, hp]⟩

/-- C5 witness: a concrete active RMC sentence with hour 99 and month 99
is skipped and the stream continues to the next line. -/
theorem sync_parse_failure_skip_witness :
    processLine rmcBadTimeLine = none
    ∧ syncLoop setOkStub (rmcBadTimeLine :: [rmcActiveLine]) StreamEnd.timeout
        = syncLoop setOkStub [rmcActiveLine] StreamEnd.timeout :=
  sync_parse_failure_skip setOkStub rmcBadTimeLine [rmcActiveLine]
    StreamEnd.timeout NMEAErr.timeParseError (by decide) (by decide) (by rfl)

/-- C8: a line that does not begin with the exact prefix `$GPRMC` —
including RMC sentences of the other talkers `GN`, `GL`, `GA` — never
makes `SyncTime`'s handler invoke the clock-set collaborator: the handler
yields no timestamp and the loop continues unchanged. -/
theorem sync_non_gprmc_skip (setR : DateTime → Option GPSErr) (l : List Char)
    (ls : List (List Char)) (e : StreamEnd)
    (h : startsWith "$GPRMC".toList l = false) :
    processLine l = none ∧ syncLoop setR (l :: ls) e = syncLoop setR ls e := by
  have hp : processLine l = none := by
    unfold processLine
    rw [if_neg (by rw [h]; exact Bool.false_ne_true)]
  exact ⟨hp, by simp [syncLoop, hp]⟩

/-- C8 witness: a `$GNRMC` sentence with a valid fix is still skipped. -/
theorem sync_non_gprmc_skip_witness :
    processLine "$GNRMC,123456,A,0000.000,N,00000.000,E,0.0,0.0,010124,0.0,W*00".toList = none
    ∧ syncLoop setOkStub
        ["$GNRMC,123456,A,0000.000,N,00000.000,E,0.0,0.0,010124,0.0,W*00".toList]
        StreamEnd.timeout
        = syncLoop setOkStub [] StreamEnd.timeout :=
  sync_non_gprmc_skip setOkStub
    "$GNRMC,123456,A,0000.000,N,00000.000,E,0.0,0.0,010124,0.0,W*00".toList
    [] StreamEnd.timeout (by decide)

/-- C9: a `$GPRMC` line splitting into fewer than 10 comma-separated
fields is skipped by the length guard before the handler looks at the
status field (index 2) or the date field (index 9), so the handler yields
no timestamp and the loop continues. -/
theorem sync_short_line_skip (setR : DateTime → Option GPSErr) (l : List Char)
    (ls : List (List Char)) (e : StreamEnd)
    (h1 : startsWith "$GPRMC".toList l = true)
    (h2 : (l.splitOn ',').length < 10) :
    processLine l = none ∧ syncLoop setR (l :: ls) e = syncLoop setR ls e := by
  have hp : processLine l = none := by
    unfold processLine
    rw [if_pos h1]
    simp [h2]
  exact ⟨hp, by simp [syncLoop, hp]⟩

/-- C9 witness: a truncated `$GPRMC` sentence with only three fields is
skipped. -/
theorem sync_short_line_skip_witness :
    processLine "$GPRMC,123519,A".toList = none
    ∧ syncLoop setOkStub ["$GPRMC,123519,A".toList] StreamEnd.timeout
        = syncLoop setOkStub [] StreamEnd.timeout :=
  sync_short_line_skip setOkStub "$GPRMC,123519,A".toList [] StreamEnd.timeout
    (by decide) (by decide)

/-- When no delivered line carries a recognized talker prefix, the probe
loop reaches the end of the window and reports it. -/
theorem probeLoop_all_skipped (lines : List (List Char)) (e : StreamEnd)
    (h : ∀ l ∈ lines, hasNMEATalker l = false) :
    probeLoop lines e = probeLoop [] e := by
  induction lines with
  | nil => rfl
  | cons l ls ih =>
    have hl : hasNMEATalker l = false := h l (List.mem_cons_self l ls)
    have hls : ∀ x ∈ ls, hasNMEATalker x = false :=
      fun x hx => h x (List.mem_cons_of_mem l hx)
    simp [probeLoop, hl, ih hls]

/-- C2 counterexample: against a stream producing no line within the
timeout window, `IsGPSDevice` does NOT return `false` with a nil error —
it returns `ErrNoValidData`. -/
theorem probe_timeout_not_nil_error_cex :
    (IsGPSDevice false "/dev/ttyUSB0".toList true true [] StreamEnd.timeout).2
      ≠ (false, none) := by
  decide

/-- C2 (amended): for every stream producing no line with a recognized
NMEA talker prefix within the probe's timeout window, `IsGPSDevice`
returns `false` together with the error `ErrNoValidData`; an I/O failure
returns `false` with a different (read) error, so the two outcomes are
distinguished by which error is returned, not by the absence of one. -/
theorem probe_timeout_reports_no_valid_data (windows : Bool) (device : List Char)
    (lines : List (List Char))
    (hdev : devPathOk windows device = true)
    (hlines : ∀ l ∈ lines, hasNMEATalker l = false) :
    (IsGPSDevice windows device true true lines StreamEnd.timeout).2
      = (false, some GPSErr.noValidData)
    ∧ (IsGPSDevice windows device true true lines StreamEnd.ioError).2
      = (false, some GPSErr.readError)
    ∧ GPSErr.noValidData ≠ GPSErr.readError := by
  refine ⟨?_, ?_, by decide⟩
  · unfold IsGPSDevice
    rw [if_pos hdev]
    simp [probeLoop_all_skipped lines StreamEnd.timeout hlines, probeLoop]
  · unfold IsGPSDevice
    rw [if_pos hdev]
    simp [probeLoop_all_skipped lines StreamEnd.ioError hlines, probeLoop]

/-- C2 witness: a stream delivering one non-NMEA line and then timing
out. -/
theorem probe_timeout_reports_no_valid_data_witness :
    (IsGPSDevice false "/dev/ttyUSB0".toList true true ["hello".toList]
        StreamEnd.timeout).2 = (false, some GPSErr.noValidData)
    ∧ (IsGPSDevice false "/dev/ttyUSB0".toList true true ["hello".toList]
        StreamEnd.ioError).2 = (false, some GPSErr.readError)
    ∧ GPSErr.noValidData ≠ GPSErr.readError :=
  probe_timeout_reports_no_valid_data false "/dev/ttyUSB0".toList
    ["hello".toList] (by decide) (by decide)

/-- C10: a device path that does not start with `"/dev/"` (non-Windows)
or `"COM"` (Windows) makes `IsGPSDevice` return `false` together with the
path-validation error, with no attempt to open or configure the device
(empty effect trace). -/
theorem gps_device_invalid_path (windows : Bool) (device : List Char)
    (openOk cfgOk : Bool) (lines : List (List Char)) (tail : StreamEnd)
    (h : (windows = true ∧ startsWith "COM".toList device = false)
      ∨ (windows = false ∧ startsWith "/dev/".toList device = false)) :
    IsGPSDevice windows device openOk cfgOk lines tail
      = ([], (false, some GPSErr.invalidPath)) := by
  have hdev : devPathOk windows device = false := by
    rcases h with ⟨hw, hc⟩ | ⟨hw, hc⟩ <;> simp [devPathOk, hw] <;> exact hc
  unfold IsGPSDevice
  rw [if_neg (by rw [hdev]; exact Bool.false_ne_true)]

/-- C10 witness: a relative path on a non-Windows platform is rejected
before any collaborator call. -/
theorem gps_device_invalid_path_witness :
    IsGPSDevice false "ttyUSB0".toList true true [] StreamEnd.timeout
      = ([], (false, some GPSErr.invalidPath)) :=
  gps_device_invalid_path false "ttyUSB0".toList true true [] StreamEnd.timeout
    (Or.inr ⟨rfl, by decide⟩)

/-- The left fold of `addChecksumAndCRLF` computes the same XOR as the
spec's right-to-left formulation. -/
theorem computeChecksum_eq_xorBytes (b : List Char) :
    computeChecksum b = xorBytes b := by
  have key : ∀ (l : List Char) (a : Nat),
      l.foldl (fun x c => x ^^^ c.toNat) a = a ^^^ xorBytes l := by
    intro l
    induction l with
    | nil => intro a; simp [xorBytes]
    | cons c cs ih =>
      intro a
      simp only [List.foldl_cons, xorBytes, ih (a ^^^ c.toNat)]
      rw [Nat.xor_assoc]
  simpa [computeChecksum] using key b 0

/-- XOR of byte values below 256 stays below 256. -/
theorem xorBytes_lt_256 (b : List Char) (h : ∀ c ∈ b, c.toNat < 256) :
    xorBytes b < 256 := by
  induction b with
  | nil => simp [xorBytes]
  | cons c cs ih =>
    have hc : c.toNat < 2 ^ 8 := h c (List.mem_cons_self c cs)
    have hcs : xorBytes cs < 2 ^ 8 :=
      ih (fun x hx => h x (List.mem_cons_of_mem c hx))
    exact Nat.xor_lt_two_pow hc hcs

theorem hexDigitChar_upper : ∀ n < 16, isUpperHexDigit (hexDigitChar n) = true := by
  decide

theorem hexVal_hexDigitChar : ∀ n < 16, hexVal (hexDigitChar n) = some n := by
  decide

theorem hexDigitChar_not_crlf :
    ∀ n < 16, (hexDigitChar n == '\r' || hexDigitChar n == '\n') = false := by
  decide

/-- C6: for every ASCII sentence body `b`, the encoder returns exactly
`"$" + b + "*" + the uppercase two-hex-digit XOR of b's byte values +
"\r\n"`; the checksum value fits in one byte, so `%02X` emits exactly two
characters, both uppercase hexadecimal digits.  (Purity and determinism
hold by construction: `addChecksumAndCRLF` is a function of `b` alone.) -/
theorem encode_checksum_shape (b : List Char) (h : ∀ c ∈ b, c.toNat < 128) :
    addChecksumAndCRLF b
      = '$' :: b ++ '*' ::
          [hexDigitChar (xorBytes b / 16), hexDigitChar (xorBytes b % 16)]
          ++ ['\r', '\n']
    ∧ xorBytes b < 256
    ∧ (hex02X (computeChecksum b)).length = 2
    ∧ ∀ c ∈ hex02X (computeChecksum b), isUpperHexDigit c = true := by
  have h256 : ∀ c ∈ b, c.toNat < 256 :=
    fun c hc => Nat.lt_trans (h c hc) (by norm_num)
  have hlt : xorBytes b < 256 := xorBytes_lt_256 b h256
  have hcx : computeChecksum b = xorBytes b := computeChecksum_eq_xorBytes b
  refine ⟨?_, hlt, rfl, ?_⟩
  · unfold addChecksumAndCRLF hex02X
    rw [hcx]
  · intro c hc
    unfold hex02X at hc
    have hdiv : computeChecksum b / 16 < 16 := by
      rw [hcx]
      omega
    have hmod : computeChecksum b % 16 < 16 := Nat.mod_lt _ (by norm_num)
    rcases List.mem_pair.mp hc with rfl | rfl
    · exact hexDigitChar_upper _ hdiv
    · exact hexDigitChar_upper _ hmod

/-- C6 witness: the encoder evaluated on a concrete body. -/
theorem encode_checksum_shape_witness :
    addChecksumAndCRLF "GPGGA,TEST".toList
      = '$' :: "GPGGA,TEST".toList ++ '*' ::
          [hexDigitChar (xorBytes "GPGGA,TEST".toList / 16),
           hexDigitChar (xorBytes "GPGGA,TEST".toList % 16)]
          ++ ['\r', '\n']
    ∧ xorBytes "GPGGA,TEST".toList < 256
    ∧ (hex02X (computeChecksum "GPGGA,TEST".toList)).length = 2
    ∧ ∀ c ∈ hex02X (computeChecksum "GPGGA,TEST".toList),
        isUpperHexDigit c = true :=
  encode_checksum_shape "GPGGA,TEST".toList (by decide)

theorem takeWhile_neq_star (b rest : List Char) (h : '*' ∉ b) :
    (b ++ '*' :: rest).takeWhile (fun c => c != '*') = b := by
  induction b with
  | nil => simp [List.takeWhile]
  | cons c cs ih =>
    have hc : (c != '*') = true := by
      simp
      exact fun hceq => h (hceq ▸ List.mem_cons_self c cs)
    have hcs : '*' ∉ cs := fun hmem => h (List.mem_cons_of_mem c hmem)
    simp [List.takeWhile, hc, ih hcs]

theorem dropWhile_neq_star (b rest : List Char) (h : '*' ∉ b) :
    (b ++ '*' :: rest).dropWhile (fun c => c != '*') = '*' :: rest := by
  induction b with
  | nil => simp [List.dropWhile]
  | cons c cs ih =>
    have hc : (c != '*') = true := by
      simp
      exact fun hceq => h (hceq ▸ List.mem_cons_self c cs)
    have hcs : '*' ∉ cs := fun hmem => h (List.mem_cons_of_mem c hmem)
    simp [List.dropWhile, hc, ih hcs]

theorem stripCRLF_append_crlf (l : List Char) :
    stripCRLF (l ++ ['\r', '\n']) = stripCRLF l := by
  unfold stripCRLF
  simp [List.dropWhile]

theorem stripCRLF_snoc (l : List Char) (c : Char)
    (hc : (c == '\r' || c == '\n') = false) :
    stripCRLF (l ++ [c]) = l ++ [c] := by
  unfold stripCRLF
  rw [List.reverse_append]
  simp only [List.reverse_cons, List.reverse_nil, List.nil_append,
    List.singleton_append, List.dropWhile_cons, hc]
  simp

/-- C7 (Decode modelled from the spec, which src lacks): decoding an
encoded sentence succeeds and the recomputed checksum matches the two hex
digits the encoder appended, so `checksumValid` is `true`; talker, type
and fields are recovered from the body. -/
theorem decode_encode_checksum_valid (b : List Char)
    (hstar : '*' ∉ b) (h : ∀ c ∈ b, c.toNat < 128) :
    Decode (addChecksumAndCRLF b)
      = some ⟨b.take 2, (b.drop 2).take 3, (b.splitOn ',').drop 1,
          computeChecksum b, true⟩ := by
  have h256 : ∀ c ∈ b, c.toNat < 256 :=
    fun c hc => Nat.lt_trans (h c hc) (by norm_num)
  have hlt : computeChecksum b < 256 := by
    rw [computeChecksum_eq_xorBytes]
    exact xorBytes_lt_256 b h256
  have hdiv : computeChecksum b / 16 < 16 := by omega
  have hmod : computeChecksum b % 16 < 16 := Nat.mod_lt _ (by norm_num)
  have hshape : addChecksumAndCRLF b
      = (('$' :: b ++ '*' :: [hexDigitChar (computeChecksum b / 16)])
          ++ [hexDigitChar (computeChecksum b % 16)]) ++ ['\r', '\n'] := by
    unfold addChecksumAndCRLF hex02X
    simp
  have hstrip : stripCRLF (addChecksumAndCRLF b)
      = '$' :: b ++ '*' :: [hexDigitChar (computeChecksum b / 16),
          hexDigitChar (computeChecksum b % 16)] := by
    rw [hshape, stripCRLF_append_crlf,
      stripCRLF_snoc _ _ (hexDigitChar_not_crlf _ hmod)]
    simp
  unfold Decode
  rw [hstrip]
  simp only [List.cons_append]
  have htake : (b ++ '*' :: [hexDigitChar (computeChecksum b / 16),
      hexDigitChar (computeChecksum b % 16)]).takeWhile (fun c => c != '*') = b :=
    takeWhile_neq_star b _ hstar
  have hdrop : (b ++ '*' :: [hexDigitChar (computeChecksum b / 16),
      hexDigitChar (computeChecksum b % 16)]).dropWhile (fun c => c != '*')
      = '*' :: [hexDigitChar (computeChecksum b / 16),
          hexDigitChar (computeChecksum b % 16)] :=
    dropWhile_neq_star b _ hstar
  rw [htake, hdrop]
  simp [hexVal_hexDigitChar _ hdiv, hexVal_hexDigitChar _ hmod, Nat.div_add_mod]

/-- C7 witness: the round trip evaluated on a concrete body. -/
theorem decode_encode_checksum_valid_witness :
    Decode (addChecksumAndCRLF "GPRMC,123519,A".toList)
      = some ⟨("GPRMC,123519,A".toList).take 2,
          (("GPRMC,123519,A".toList).drop 2).take 3,
          (("GPRMC,123519,A".toList).splitOn ',').drop 1,
          computeChecksum "GPRMC,123519,A".toList, true⟩ :=
  decode_encode_checksum_valid "GPRMC,123519,A".toList (by decide) (by decide)

/-- C4 witness: the contract evaluated at concrete inputs, including a
7-character time field whose trailing character is ignored. -/
theorem parse_nmea_time_contract_witness :
    ParseNMEATime "12345".toList "010124".toList = .error .invalidNMEAData
    ∧ ParseNMEATime "123456".toList "9999999".toList = .error .invalidNMEAData
    ∧ ParseNMEATime ("123456".toList ++ "78".toList) "010124".toList
        = ParseNMEATime "123456".toList "010124".toList :=
  ⟨parse_nmea_time_contract.2.1 "12345".toList "010124".toList (by decide),
   parse_nmea_time_contract.2.2.1 "123456".toList "9999999".toList (by decide),
   parse_nmea_time_contract.2.2.2.2.2 "123456".toList "78".toList "010124".toList
     (by decide)⟩
